import Mathlib

/-!
Verification of the clip pipeline in geopandas/tools/clip.py.

The module is a single-pass pipeline over a feature collection:
validate inputs, bounding-box short-circuit, mask resolution,
spatial-index clipping, optional geometry-type reconciliation, and
restoration of the original row order.

Shallow embedding choices:
- The geometry engine (shapely) and the spatial index are external
  collaborators; they are modelled by a record of abstract operations
  `GeomEngine`.  The pipeline definitions below are translated from the
  source; engines are only instantiated to settle concrete scenarios.
- A GeoDataFrame or GeoSeries is a `Frame`: a CRS tag plus an ordered list
  of rows, each row carrying its index label, geometry and attribute
  values (`A := Unit` recovers the bare GeoSeries case; both isinstance
  branches of the source compute the same row transformation).
- Coordinates are integers; the NaN total bounds of an empty collection
  (every numpy NaN comparison is False) are modelled by `Option BBox`
  with `none` making the overlap test return false, exactly as in the
  source.
- pandas sort_values on the synthetic order column is modelled as the
  stable insertion sort from Mathlib.
- warnings.warn calls are modelled by an explicit warning list in the
  result; raised exceptions by `Except`.
-/

namespace GPClip

/-- The eight shapely geometry type tags observed via geom_type. -/
inductive GeomTag
  | point
  | multiPoint
  | lineString
  | multiLineString
  | linearRing
  | polygon
  | multiPolygon
  | geometryCollection
deriving DecidableEq

/-- An axis-aligned bounding box (minx, miny, maxx, maxy). -/
structure BBox where
  minx : Int
  miny : Int
  maxx : Int
  maxy : Int
deriving DecidableEq

/-- The external geometry engine and spatial index (shapely and
gdf.sindex), abstracted as pure operations. `unionAll` models
unary_union, returning `none` on an empty collection as shapely does.
`sindexQuery` models gdf.sindex.query(poly, predicate := intersects),
returning row positions in unspecified (index-tree) order. -/
structure GeomEngine (G : Type) where
  geomType : G → GeomTag
  bounds : G → BBox
  intersection : G → G → G
  unionAll : List G → Option G
  explode : G → List G
  sindexQuery : List G → G → List Nat

/-- One record of a feature collection: index label, geometry, attributes. -/
structure Row (G A : Type) where
  label : Nat
  geom : G
  attrs : A
deriving DecidableEq

/-- A GeoDataFrame (or, with `A := Unit`, a GeoSeries): CRS metadata plus
an ordered list of rows. -/
structure Frame (G A : Type) where
  crs : Option Nat
  rows : List (Row G A)
deriving DecidableEq

/-- The gdf argument of clip as a Python value: either an accepted frame
(GeoDataFrame or GeoSeries) or any other object. -/
inductive GdfArg (G A : Type)
  | frame (f : Frame G A)
  | invalid

/-- The mask argument of clip as a Python value: a frame, a bare shapely
geometry (accepted only when its type is Polygon or MultiPolygon), or any
other object. -/
inductive MaskArg (G : Type)
  | frame (crs : Option Nat) (geoms : List G)
  | geom (g : G)
  | invalid

/-- Errors raised by the pipeline. `typeError` is the TypeError of input
validation; `noneMaskError` models the downstream failure of querying the
spatial index with the None produced by unary_union of no geometries. -/
inductive ClipError
  | typeError
  | noneMaskError
deriving DecidableEq

/-- The warnings the pipeline can emit. -/
inductive ClipWarning
  | crsMismatch
  | keepGeomTypeOnGeometryCollection
  | keepGeomTypeOnMixedTypes
deriving DecidableEq

/-- _POINT_TYPES from the source. -/
def _POINT_TYPES : List GeomTag := [.point, .multiPoint]

/-- _LINE_TYPES from the source. -/
def _LINE_TYPES : List GeomTag := [.lineString, .multiLineString, .linearRing]

/-- _POLYGON_TYPES from the source. -/
def _POLYGON_TYPES : List GeomTag := [.polygon, .multiPolygon]

/-- _GEOMETRY_TYPES from the source. -/
def _GEOMETRY_TYPES : List (List GeomTag) := [_POINT_TYPES, _LINE_TYPES, _POLYGON_TYPES]

/-- _clip_gdf_with_polygon: select the rows whose positions the spatial
index returns for the intersects predicate (gdf.iloc of the query
result), then replace each geometry by its intersection with poly.  Both
isinstance branches of the source produce exactly this row list; the
GeoDataFrame branch additionally copies before assigning the geometry
column, which only matters for the heap model below. -/
def _clip_gdf_with_polygon {G A : Type} (E : GeomEngine G) (rows : List (Row G A))
    (poly : G) : List (Row G A) :=
  let idxs := E.sindexQuery (rows.map Row.geom) poly
  let gdf_sub := idxs.filterMap (fun i => rows.get? i)
  gdf_sub.map (fun r => { r with geom := E.intersection r.geom poly })

/-- _validate_input_gdf: gdf must be a GeoDataFrame or GeoSeries. -/
def _validate_input_gdf {G A : Type} : GdfArg G A → Bool
  | .frame _ => true
  | .invalid => false

/-- _validate_input_mask: mask must be a GeoDataFrame, GeoSeries, Polygon
or MultiPolygon (isinstance on the shapely class, mirrored by the tag). -/
def _validate_input_mask {G : Type} (E : GeomEngine G) : MaskArg G → Bool
  | .frame _ _ => true
  | .geom g => decide (E.geomType g ∈ _POLYGON_TYPES)
  | .invalid => false

/-- Modelled from the spec: _check_crs and _crs_mismatch_warn live in
geopandas.array, outside the clipped source file.  Per the spec, a CRS
mismatch between input and mask is a non-fatal diagnostic; the check only
runs when the mask is itself a frame, as in _warn_if_crs_mismatch. -/
def _warn_if_crs_mismatch {G A : Type} (f : Frame G A) : MaskArg G → List ClipWarning
  | .frame mcrs _ => if f.crs = mcrs then [] else [.crsMismatch]
  | _ => []

/-- _contains_geometrycollection. -/
def _contains_geometrycollection {G A : Type} (E : GeomEngine G)
    (rows : List (Row G A)) : Bool :=
  rows.any (fun r => decide (E.geomType r.geom = .geometryCollection))

/-- _get_number_of_unique_geometry_types: the number of the three
geometry families with at least one member present. -/
def _get_number_of_unique_geometry_types {G A : Type} (E : GeomEngine G)
    (rows : List (Row G A)) : Nat :=
  (_GEOMETRY_TYPES.map
    (fun ts => if rows.any (fun r => decide (E.geomType r.geom ∈ ts)) then 1 else 0)).sum

/-- _keeping_geometry_type_is_possible, paired with the warnings it
emits: false with a warning when the original frame contains a
GeometryCollection or mixes more than one geometry family. -/
def _keeping_geometry_type_is_possible {G A : Type} (E : GeomEngine G)
    (rows : List (Row G A)) : Bool × List ClipWarning :=
  if _contains_geometrycollection E rows then
    (false, [.keepGeomTypeOnGeometryCollection])
  else if _get_number_of_unique_geometry_types E rows > 1 then
    (false, [.keepGeomTypeOnMixedTypes])
  else
    (true, [])

/-- Pointwise union of two bounding boxes, as used by total_bounds. -/
def mergeBBox (a b : BBox) : BBox :=
  ⟨min a.minx b.minx, min a.miny b.miny, max a.maxx b.maxx, max a.maxy b.maxy⟩

/-- total_bounds of a geometry list; `none` models the NaN bounds of an
empty collection. -/
def total_bounds {G : Type} (E : GeomEngine G) (gs : List G) : Option BBox :=
  gs.foldl
    (fun acc g =>
      match acc with
      | none => some (E.bounds g)
      | some b => some (mergeBBox b (E.bounds g)))
    none

/-- _get_mask_bounding_box: total_bounds for a frame mask, bounds for a
bare geometry mask. -/
def _get_mask_bounding_box {G : Type} (E : GeomEngine G) : MaskArg G → Option BBox
  | .frame _ gs => total_bounds E gs
  | .geom g => some (E.bounds g)
  | .invalid => none

/-- _input_bounding_boxes_intersect: closed-interval overlap test of the
two total bounding boxes.  When either box is NaN (an empty collection),
every comparison is False in the source, modelled by the `none` case. -/
def _input_bounding_boxes_intersect {G A : Type} (E : GeomEngine G) (f : Frame G A)
    (mask : MaskArg G) : Bool :=
  match total_bounds E (f.rows.map Row.geom), _get_mask_bounding_box E mask with
  | some box_gdf, some box_mask =>
      (decide (box_mask.minx ≤ box_gdf.maxx) && decide (box_gdf.minx ≤ box_mask.maxx)) &&
      (decide (box_mask.miny ≤ box_gdf.maxy) && decide (box_gdf.miny ≤ box_mask.maxy))
  | _, _ => false

/-- _empty_from_gdf: gdf.iloc up to 0, an empty frame of the same schema. -/
def _empty_from_gdf {G A : Type} (f : Frame G A) : Frame G A :=
  { f with rows := [] }

/-- _create_mask_polygon: unary_union of a frame mask, the geometry
itself otherwise. -/
def _create_mask_polygon {G : Type} (E : GeomEngine G) : MaskArg G → Option G
  | .frame _ gs => E.unionAll gs
  | .geom g => some g
  | .invalid => none

/-- gdf.explode(): one row per constituent geometry, duplicating labels
and attribute values. -/
def explodeRows {G A : Type} (E : GeomEngine G) (rows : List (Row G A)) :
    List (Row G A) :=
  rows.flatMap (fun r => (E.explode r.geom).map (fun g => { r with geom := g }))

/-- _keep_only_original_geom_type: if the clipped frame gained a
GeometryCollection or a second geometry family, explode collections and
drop rows whose family differs from the original Line or Polygon family;
otherwise return the frame unchanged. -/
def _keep_only_original_geom_type {G A : Type} (E : GeomEngine G)
    (rows : List (Row G A)) (original_type : GeomTag) : List (Row G A) :=
  let new_collections_were_created := _contains_geometrycollection E rows
  let type_count_has_increased := _get_number_of_unique_geometry_types E rows > 1
  if new_collections_were_created || type_count_has_increased then
    let exploded := if new_collections_were_created then explodeRows E rows else rows
    if original_type ∈ _LINE_TYPES then
      exploded.filter (fun r => decide (E.geomType r.geom ∈ _LINE_TYPES))
    else if original_type ∈ _POLYGON_TYPES then
      exploded.filter (fun r => decide (E.geomType r.geom ∈ _POLYGON_TYPES))
    else
      exploded
  else
    rows

/-- The rank a clipped row receives from the order series
pd.Series(range(len(original_gdf)), index := original_gdf.index): the
position in the original frame of the row with the same label (labels
are unique by the collection invariant). -/
def _order_rank {G A : Type} (orig : List (Row G A)) (r : Row G A) : Nat :=
  (orig.map Row.label).findIdx (fun l => decide (l = r.label))

/-- _recreate_initial_order: attach each surviving row its original
position and sort by it; exploded rows share their parent label and
hence their parent rank.  The source sorts with sort_values on the
synthetic column using the tabular library's default sort kind, whose
order among rows with equal keys is not documented; to stay executable
this model instantiates one concrete correct sort (a stable one), but
the tie order among equal ranks is a model choice, not a guarantee of
the source, and no theorem below relies on it — the conclusions drawn
from this definition are invariant under the tie order (permutations,
membership, or runs with pairwise distinct ranks). -/
def _recreate_initial_order {G A : Type} (orig clipped : List (Row G A)) :
    List (Row G A) :=
  List.insertionSort (fun a b => _order_rank orig a ≤ _order_rank orig b) clipped

/-- gdf.geom_type.iloc at position 0, the geometry tag of the first
original row.  The empty case is junk: clip only reads this value when
the clipped frame is nonempty, which forces the original to be nonempty. -/
def originalTypeOf {G A : Type} (E : GeomEngine G) : List (Row G A) → GeomTag
  | [] => .point
  | r :: _ => E.geomType r.geom

/-- clip: the public pipeline.  Returns the resulting frame together
with the warnings emitted along the way, or the raised error. -/
def clip {G A : Type} (E : GeomEngine G) (gdf : GdfArg G A) (mask : MaskArg G)
    (keep_geom_type : Bool) : Except ClipError (Frame G A × List ClipWarning) :=
  if _validate_input_gdf gdf && _validate_input_mask E mask then
    match gdf with
    | .invalid => .error .typeError
    | .frame f =>
      let crsWarnings := _warn_if_crs_mismatch f mask
      if _input_bounding_boxes_intersect E f mask then
        match _create_mask_polygon E mask with
        | none => .error .noneMaskError
        | some mask_polygon =>
          let clipped := _clip_gdf_with_polygon E f.rows mask_polygon
          if clipped.isEmpty then
            .ok (_empty_from_gdf f, crsWarnings)
          else
            let kg := _keeping_geometry_type_is_possible E f.rows
            let kgWarnings := if keep_geom_type then kg.2 else []
            let clipped2 :=
              if keep_geom_type && kg.1 then
                _keep_only_original_geom_type E clipped (originalTypeOf E f.rows)
              else
                clipped
            .ok ({ f with rows := _recreate_initial_order f.rows clipped2 },
                 crsWarnings ++ kgWarnings)
      else
        .ok (_empty_from_gdf f, crsWarnings)
  else
    .error .typeError

/-- Provenance of an output row: it copies the label and attribute values
of some original row, and its geometry is either the exact intersection
of that row's geometry with the resolved mask polygon, or one of the
parts the engine explodes that intersection into. -/
def RowProvenance {G A : Type} (E : GeomEngine G) (orig : List (Row G A)) (poly : G)
    (r : Row G A) : Prop :=
  ∃ r0 ∈ orig, r.label = r0.label ∧ r.attrs = r0.attrs ∧
    (r.geom = E.intersection r0.geom poly ∨
     r.geom ∈ E.explode (E.intersection r0.geom poly))

/-!
Heap model for the frame property.  Python frames are objects in a
store; each pandas operation of the source either allocates a fresh
object or writes an existing one in place.  The operations that write in
place are the two column assignments of the source (the geometry column
in _clip_gdf_with_polygon after the copy, and the synthetic order column
in _recreate_initial_order); iloc selection, copy, explode, loc
filtering and sort_values-drop all produce fresh objects.
-/

/-- A frame object as stored on the heap: its value plus the synthetic
order column when one has been assigned. -/
structure HFrame (G A : Type) where
  frame : Frame G A
  orderCol : Option (List Nat)

/-- A heap of frame objects: the next fresh address and the contents. -/
structure Store (G A : Type) where
  next : Nat
  mem : Nat → Option (HFrame G A)

/-- Allocate a fresh object, returning its address. -/
def Store.alloc {G A : Type} (s : Store G A) (v : HFrame G A) : Nat × Store G A :=
  (s.next, ⟨s.next + 1, fun j => if j = s.next then some v else s.mem j⟩)

/-- Overwrite the object at an existing address (in-place mutation). -/
def Store.write {G A : Type} (s : Store G A) (i : Nat) (v : HFrame G A) : Store G A :=
  ⟨s.next, fun j => if j = i then some v else s.mem j⟩

/-- The mask argument in the heap model: a reference to a frame object,
a bare geometry value, or any other object. -/
inductive MaskRef (G : Type)
  | frameId (i : Nat)
  | geom (g : G)
  | invalid

/-- _empty_from_gdf in the heap model: iloc produces a fresh frame. -/
def emptyFromGdfS {G A : Type} (st : Store G A) (f : Frame G A) : Nat × Store G A :=
  st.alloc ⟨_empty_from_gdf f, none⟩

/-- _clip_gdf_with_polygon in the heap model: iloc of the query result
allocates gdf_sub, copy() allocates clipped, and the geometry-column
assignment writes clipped in place.  The rows stored at the returned
address are exactly the pure _clip_gdf_with_polygon rows. -/
def clipGdfWithPolygonS {G A : Type} (E : GeomEngine G) (st : Store G A)
    (f : Frame G A) (poly : G) : Nat × Store G A :=
  let idxs := E.sindexQuery (f.rows.map Row.geom) poly
  let subRows := idxs.filterMap (fun i => f.rows.get? i)
  let s1 := st.alloc ⟨⟨f.crs, subRows⟩, none⟩
  let s2 := s1.2.alloc ⟨⟨f.crs, subRows⟩, none⟩
  let clippedRows := subRows.map (fun r => { r with geom := E.intersection r.geom poly })
  (s2.1, s2.2.write s2.1 ⟨⟨f.crs, clippedRows⟩, none⟩)

/-- _recreate_initial_order in the heap model: the synthetic order
column is assigned in place on the clipped frame, then
sort_values-and-drop produces the fresh returned frame. -/
def recreateInitialOrderS {G A : Type} (st : Store G A) (orig : List (Row G A))
    (curId : Nat) (crs : Option Nat) (rows2 : List (Row G A)) : Nat × Store G A :=
  let s6 := st.write curId ⟨⟨crs, rows2⟩, some (rows2.map (_order_rank orig))⟩
  s6.alloc ⟨⟨crs, _recreate_initial_order orig rows2⟩, none⟩

/-- clip in the heap model: the same pipeline as `clip`, with every
frame-producing step of the source made explicit as an allocation and
every in-place column assignment as a write (the explode and loc
filtering of reconciliation, both fresh-frame producers, are collapsed
into one allocation).  A dangling gdf address plays the role of a
non-frame Python object (TypeError).  Warnings are omitted here; they
carry no heap effect. -/
def clipS {G A : Type} (E : GeomEngine G) (st : Store G A) (gdfId : Nat)
    (mask : MaskRef G) (keep_geom_type : Bool) : Except ClipError Nat × Store G A :=
  match st.mem gdfId with
  | none => (.error .typeError, st)
  | some hf =>
    let maskV : Option (MaskArg G) :=
      match mask with
      | .frameId i =>
          (st.mem i).map (fun mh => MaskArg.frame mh.frame.crs (mh.frame.rows.map Row.geom))
      | .geom g => some (.geom g)
      | .invalid => some .invalid
    match maskV with
    | none => (.error .typeError, st)
    | some mv =>
      if _validate_input_mask E mv then
        let f := hf.frame
        if _input_bounding_boxes_intersect E f mv then
          match _create_mask_polygon E mv with
          | none => (.error .noneMaskError, st)
          | some poly =>
            let c := clipGdfWithPolygonS E st f poly
            let clippedRows := _clip_gdf_with_polygon E f.rows poly
            if clippedRows.isEmpty then
              let s4 := emptyFromGdfS c.2 f
              (.ok s4.1, s4.2)
            else
              let kg := _keeping_geometry_type_is_possible E f.rows
              let rows2 :=
                if keep_geom_type && kg.1 then
                  _keep_only_original_geom_type E clippedRows (originalTypeOf E f.rows)
                else
                  clippedRows
              let step :=
                if keep_geom_type && kg.1 then
                  c.2.alloc ⟨⟨f.crs, rows2⟩, none⟩
                else
                  (c.1, c.2)
              let r := recreateInitialOrderS step.2 f.rows step.1 f.crs rows2
              (.ok r.1, r.2)
        else
          let s1 := emptyFromGdfS st f
          (.ok s1.1, s1.2)
      else
        (.error .typeError, st)

/-- The store regions below address n are untouched and the frontier has
not receded: the relation each pipeline step preserves. -/
def PreservesBelow {G A : Type} (n : Nat) (s s2 : Store G A) : Prop :=
  n ≤ s2.next ∧ ∀ j < n, s2.mem j = s.mem j

/-!
Concrete fixtures: a tiny geometry type and engines instantiating the
external collaborators, used to settle the concrete scenarios.  A `CG`
is a geometry tag, a distinguishing identity and a bounding box; the
engines below choose intersection, union and explode behaviour per
scenario (the pipeline itself never inspects geometries beyond the
engine operations).
-/

/-- A concrete geometry: tag, identity, bounding box. -/
structure CG where
  tag : GeomTag
  uid : Nat
  box : BBox
deriving DecidableEq

/-- Shorthand for a bounding box literal. -/
def bx (a b c d : Int) : BBox := ⟨a, b, c, d⟩

/-- A square polygon spanning 0..10. -/
def gPoly0 : CG := ⟨.polygon, 0, bx 0 0 10 10⟩

/-- A square mask polygon spanning 5..15, overlapping gPoly0. -/
def gMask : CG := ⟨.polygon, 10, bx 5 5 15 15⟩

/-- A GeometryCollection produced as an intersection result. -/
def gInterGC : CG := ⟨.geometryCollection, 20, bx 5 5 10 10⟩

/-- The polygon part the engine explodes gInterGC into. -/
def gPart : CG := ⟨.polygon, 30, bx 5 5 10 10⟩

/-- A line produced as a degenerate, tangent intersection result. -/
def gLine : CG := ⟨.lineString, 21, bx 10 0 10 10⟩

/-- A GeometryCollection appearing in an original frame. -/
def gGC : CG := ⟨.geometryCollection, 40, bx 0 0 1 1⟩

/-- A polygon far away from everything near the origin. -/
def gFar : CG := ⟨.polygon, 41, bx 100 100 110 110⟩

/-- A large mask polygon spanning 0..15. -/
def gMaskBig : CG := ⟨.polygon, 11, bx 0 0 15 15⟩

/-- A spatial-index query that returns every row position. -/
def rangeQuery : List CG → CG → List Nat := fun gs _ => List.range gs.length

/-- Engine whose intersection yields a GeometryCollection that explodes
into a polygon part. -/
def e1 : GeomEngine CG where
  geomType := CG.tag
  bounds := CG.box
  intersection := fun _ _ => gInterGC
  unionAll := fun gs => gs.head?
  explode := fun g => if g.tag = .geometryCollection then [gPart] else [g]
  sindexQuery := rangeQuery

/-- Engine whose intersection yields a degenerate line remnant. -/
def e4 : GeomEngine CG where
  geomType := CG.tag
  bounds := CG.box
  intersection := fun _ _ => gLine
  unionAll := fun gs => gs.head?
  explode := fun g => [g]
  sindexQuery := rangeQuery

/-- A one-row polygon frame without CRS. -/
def f1 : Frame CG Unit := ⟨none, [⟨0, gPoly0, ()⟩]⟩

/-- A one-row frame containing a GeometryCollection. -/
def fGC : Frame CG Unit := ⟨none, [⟨0, gGC, ()⟩]⟩

/-- A one-row polygon frame carrying CRS 1. -/
def fCrs : Frame CG Unit := ⟨some 1, [⟨0, gPoly0, ()⟩]⟩

/-- A concrete store holding f1 at address 0. -/
def st0 : Store CG Unit :=
  ⟨1, fun j => if j = 0 then some ⟨f1, none⟩ else none⟩

/-- C10: on a clipped frame with no GeometryCollection and at most one
geometry family, _keep_only_original_geom_type is the identity for every
original type, and hence applying it twice equals applying it once. -/
theorem keep_only_original_geom_type_identity {G A : Type} (E : GeomEngine G)
    (rows : List (Row G A)) (t : GeomTag)
    (hgc : _contains_geometrycollection E rows = false)
    (hcnt : _get_number_of_unique_geometry_types E rows ≤ 1) :
    _keep_only_original_geom_type E rows t = rows ∧
    _keep_only_original_geom_type E (_keep_only_original_geom_type E rows t) t =
      _keep_only_original_geom_type E rows t := by
  have hlt : ¬ (_get_number_of_unique_geometry_types E rows > 1) := Nat.not_lt.mpr hcnt
  have h1 : _keep_only_original_geom_type E rows t = rows := by
    unfold _keep_only_original_geom_type
    simp [hgc, hlt]
  exact ⟨h1, by rw [h1, h1]⟩

/-- Witness for C10 at a concrete one-row polygon frame. -/
theorem keep_only_original_geom_type_identity_witness :
    _contains_geometrycollection e1 f1.rows = false ∧
    _get_number_of_unique_geometry_types e1 f1.rows ≤ 1 ∧
    (_keep_only_original_geom_type e1 f1.rows .polygon = f1.rows ∧
     _keep_only_original_geom_type e1 (_keep_only_original_geom_type e1 f1.rows .polygon)
       .polygon = _keep_only_original_geom_type e1 f1.rows .polygon) :=
  ⟨rfl, by decide,
    keep_only_original_geom_type_identity e1 f1.rows .polygon rfl (by decide)⟩

/-- C7: when the gdf argument is not an accepted frame, or the mask is
not an accepted frame or (Multi)Polygon, clip raises the TypeError.  The
engine E is universally quantified and the result is the same for every
engine, so no bounding-box test, mask resolution or intersection result
can influence this outcome. -/
theorem clip_invalid_args_raise_type_error {G A : Type} (E : GeomEngine G)
    (gdf : GdfArg G A) (mask : MaskArg G) (kgt : Bool)
    (h : _validate_input_gdf gdf = false ∨ _validate_input_mask E mask = false) :
    clip E gdf mask kgt = .error .typeError := by
  unfold clip
  rcases h with h | h <;> simp [h]

/-- Witness for C7 at a concrete non-frame gdf argument. -/
theorem clip_invalid_args_raise_type_error_witness :
    (_validate_input_gdf (GdfArg.invalid : GdfArg CG Unit) = false ∨
     _validate_input_mask e4 (MaskArg.geom gMask) = false) ∧
    clip e4 (GdfArg.invalid : GdfArg CG Unit) (.geom gMask) false = .error .typeError :=
  ⟨Or.inl rfl,
    clip_invalid_args_raise_type_error e4 .invalid (.geom gMask) false (Or.inl rfl)⟩

/-- C9: an accepted input frame with zero rows clips to an empty frame of
the same schema without an error for every accepted mask: the empty
collection has undefined (NaN) total bounds, every NaN comparison is
false, so the bounding-box short-circuit fires. -/
theorem clip_empty_input_returns_empty {G A : Type} (E : GeomEngine G) (c : Option Nat)
    (mask : MaskArg G) (kgt : Bool) (hm : _validate_input_mask E mask = true) :
    clip E (.frame (⟨c, []⟩ : Frame G A)) mask kgt =
      .ok (⟨c, []⟩, _warn_if_crs_mismatch (⟨c, []⟩ : Frame G A) mask) := by
  have hbb : _input_bounding_boxes_intersect E (⟨c, []⟩ : Frame G A) mask = false := by
    unfold _input_bounding_boxes_intersect
    cases h : _get_mask_bounding_box E mask <;> rfl
  unfold clip
  simp [hm, hbb, _validate_input_gdf, _empty_from_gdf]

/-- Witness for C9 at a concrete empty frame and polygon mask. -/
theorem clip_empty_input_returns_empty_witness :
    _validate_input_mask e4 (MaskArg.geom gMask) = true ∧
    clip e4 (.frame (⟨none, []⟩ : Frame CG Unit)) (.geom gMask) false =
      .ok (⟨none, []⟩, _warn_if_crs_mismatch (⟨none, []⟩ : Frame CG Unit) (.geom gMask)) :=
  ⟨rfl, clip_empty_input_returns_empty e4 none (.geom gMask) false rfl⟩

/-- C6 counterexample: a mask given as a feature collection with zero
features is not an error: clip returns an ok empty result, so the
claimed fatal InvalidMask failure does not happen. -/
theorem clip_empty_mask_collection_not_fatal :
    clip e4 (.frame f1) (.frame none ([] : List CG)) false =
      .ok ((⟨none, []⟩ : Frame CG Unit), []) := rfl

/-- C6 amended: for every mask given as a feature collection with zero
features, clip returns an empty result of the input schema and raises no
error: the empty mask has undefined (NaN) total bounds, so the
bounding-box overlap test is false and the empty short-circuit fires
before mask resolution. -/
theorem clip_empty_mask_returns_empty {G A : Type} (E : GeomEngine G) (f : Frame G A)
    (mcrs : Option Nat) (kgt : Bool) :
    clip E (.frame f) (.frame mcrs ([] : List G)) kgt =
      .ok (_empty_from_gdf f, _warn_if_crs_mismatch f (.frame mcrs [])) := by
  have hbb : _input_bounding_boxes_intersect E f (.frame mcrs ([] : List G)) = false := by
    unfold _input_bounding_boxes_intersect
    cases h : total_bounds E (f.rows.map Row.geom) <;> rfl
  unfold clip
  simp [hbb, _validate_input_gdf, _validate_input_mask]

/-- C3 counterexample: a disjoint-bounds invocation whose mask carries a
different CRS does emit a warning (the CRS-mismatch diagnostic), so the
claim that no warning is emitted on the short-circuit path is false. -/
theorem clip_disjoint_bbox_crs_warning :
    _input_bounding_boxes_intersect e4 fCrs (.frame (some 2) [gFar]) = false ∧
    clip e4 (.frame fCrs) (.frame (some 2) [gFar]) false =
      .ok ((⟨some 1, []⟩ : Frame CG Unit), [ClipWarning.crsMismatch]) ∧
    ([ClipWarning.crsMismatch] : List ClipWarning) ≠ [] :=
  ⟨rfl, rfl, by decide⟩

/-- C4 counterexample: a polygon-only frame clipped with keep_geom_type
can return a line: when the tangent intersection yields a single
LineString, the clipped frame has one family and no GeometryCollection,
so the reconciliation trigger does not fire and the line row is kept. -/
theorem clip_keep_geom_type_line_remnant :
    (∀ r ∈ f1.rows, e4.geomType r.geom ∈ _POLYGON_TYPES) ∧
    clip e4 (.frame f1) (.geom gMask) true =
      .ok ((⟨none, [⟨0, gLine, ()⟩]⟩ : Frame CG Unit), []) ∧
    e4.geomType gLine ∉ _POLYGON_TYPES :=
  ⟨by decide, rfl, by decide⟩

/-- C5 counterexample: keep_geom_type is requested on an original frame
containing a GeometryCollection, but because the bounding boxes are
disjoint the pipeline returns early with no warning at all, so the
claimed diagnostic is not emitted on this invocation. -/
theorem clip_skip_warning_missing_on_disjoint :
    _contains_geometrycollection e4 fGC.rows = true ∧
    clip e4 (.frame fGC) (.geom gFar) true =
      .ok ((⟨none, []⟩ : Frame CG Unit), []) :=
  ⟨rfl, rfl⟩

/-- C1 counterexample: with keep_geom_type, the returned geometry gPart
is an exploded part of the intersection, and differs from the exact
intersection of every original row with the resolved mask, so not every
output geometry is an exact intersection. -/
theorem clip_exploded_part_not_exact_intersection :
    clip e1 (.frame f1) (.geom gMask) true =
      .ok ((⟨none, [⟨0, gPart, ()⟩]⟩ : Frame CG Unit), []) ∧
    _create_mask_polygon e1 (.geom gMask) = some gMask ∧
    ∀ r ∈ f1.rows, gPart ≠ e1.intersection r.geom gMask :=
  ⟨rfl, rfl, by decide⟩

/-- Input validation reads only the geomType operation of the engine. -/
theorem validate_input_mask_congr {G : Type} (E E2 : GeomEngine G) (mask : MaskArg G)
    (hg : E2.geomType = E.geomType) :
    _validate_input_mask E2 mask = _validate_input_mask E mask := by
  cases mask <;> simp [_validate_input_mask, hg]

/-- total_bounds reads only the bounds operation of the engine. -/
theorem total_bounds_congr {G : Type} (E E2 : GeomEngine G) (gs : List G)
    (hb : E2.bounds = E.bounds) : total_bounds E2 gs = total_bounds E gs := by
  unfold total_bounds
  rw [hb]

/-- The bounding-box test reads only the bounds operation of the engine. -/
theorem bounding_boxes_intersect_congr {G A : Type} (E E2 : GeomEngine G) (f : Frame G A)
    (mask : MaskArg G) (hb : E2.bounds = E.bounds) :
    _input_bounding_boxes_intersect E2 f mask = _input_bounding_boxes_intersect E f mask := by
  have hm : _get_mask_bounding_box E2 mask = _get_mask_bounding_box E mask := by
    cases mask <;> simp [_get_mask_bounding_box, total_bounds_congr E E2 _ hb, hb]
  unfold _input_bounding_boxes_intersect
  rw [total_bounds_congr E E2 _ hb, hm]

/-- C3 amended: when the total bounding boxes do not overlap (closed
intervals), clip returns an empty frame of the same schema with no error
and no warning other than the CRS-mismatch diagnostic, and the result is
the same for every engine that agrees on geomType and bounds — so no
intersection, union, explode or spatial-index work can influence it. -/
theorem clip_bbox_shortcircuit {G A : Type} (E : GeomEngine G) (f : Frame G A)
    (mask : MaskArg G) (kgt : Bool)
    (hval : _validate_input_mask E mask = true)
    (hbb : _input_bounding_boxes_intersect E f mask = false) :
    ∀ E2 : GeomEngine G, E2.geomType = E.geomType → E2.bounds = E.bounds →
      clip E2 (.frame f) mask kgt =
        .ok (_empty_from_gdf f, _warn_if_crs_mismatch f mask) := by
  intro E2 hg hb
  have hval2 : _validate_input_mask E2 mask = true := by
    rw [validate_input_mask_congr E E2 mask hg]
    exact hval
  have hbb2 : _input_bounding_boxes_intersect E2 f mask = false := by
    rw [bounding_boxes_intersect_congr E E2 f mask hb]
    exact hbb
  unfold clip
  simp [hval2, hbb2, _validate_input_gdf]

/-- Witness for C3 amended at a concrete disjoint pair with matching
CRS. -/
theorem clip_bbox_shortcircuit_witness :
    _validate_input_mask e4 (MaskArg.geom gFar) = true ∧
    _input_bounding_boxes_intersect e4 f1 (MaskArg.geom gFar) = false ∧
    clip e4 (.frame f1) (.geom gFar) false =
      .ok (_empty_from_gdf f1, _warn_if_crs_mismatch f1 (MaskArg.geom gFar)) :=
  ⟨rfl, rfl, clip_bbox_shortcircuit e4 f1 (.geom gFar) false rfl rfl e4 rfl rfl⟩

/-- C5 amended: when keep_geom_type is requested, the pipeline reaches
the reconciliation stage (boxes overlap, the mask resolves and the
clipped candidate set is nonempty), and the original frame contains a
GeometryCollection or mixes families, then reconciliation is skipped: a
non-empty warning diagnostic is emitted and the unreconciled,
order-restored clip result is returned. -/
theorem clip_reconciliation_skipped {G A : Type} (E : GeomEngine G) (f : Frame G A)
    (mask : MaskArg G) (poly : G)
    (hval : _validate_input_mask E mask = true)
    (hbb : _input_bounding_boxes_intersect E f mask = true)
    (hmk : _create_mask_polygon E mask = some poly)
    (hne : (_clip_gdf_with_polygon E f.rows poly).isEmpty = false)
    (hskip : _contains_geometrycollection E f.rows = true ∨
             1 < _get_number_of_unique_geometry_types E f.rows) :
    clip E (.frame f) mask true =
      .ok ({ f with
              rows := _recreate_initial_order f.rows
                (_clip_gdf_with_polygon E f.rows poly) },
           _warn_if_crs_mismatch f mask ++
             (_keeping_geometry_type_is_possible E f.rows).2) ∧
    (_keeping_geometry_type_is_possible E f.rows).2 ≠ [] := by
  have hkg : (_keeping_geometry_type_is_possible E f.rows).1 = false ∧
      (_keeping_geometry_type_is_possible E f.rows).2 ≠ [] := by
    unfold _keeping_geometry_type_is_possible
    cases hc : _contains_geometrycollection E f.rows
    · rcases hskip with h | h
      · rw [hc] at h
        cases h
      · simp [h]
    · simp
  refine ⟨?_, hkg.2⟩
  unfold clip
  simp [_validate_input_gdf, hval, hbb, hmk, hne, hkg.1]

/-- Witness for C5 amended at a concrete GeometryCollection input frame
and an overlapping mask. -/
theorem clip_reconciliation_skipped_witness :
    _validate_input_mask e4 (MaskArg.geom gMaskBig) = true ∧
    _input_bounding_boxes_intersect e4 fGC (MaskArg.geom gMaskBig) = true ∧
    _create_mask_polygon e4 (MaskArg.geom gMaskBig) = some gMaskBig ∧
    (_clip_gdf_with_polygon e4 fGC.rows gMaskBig).isEmpty = false ∧
    (clip e4 (.frame fGC) (.geom gMaskBig) true =
      .ok ({ fGC with
              rows := _recreate_initial_order fGC.rows
                (_clip_gdf_with_polygon e4 fGC.rows gMaskBig) },
           _warn_if_crs_mismatch fGC (MaskArg.geom gMaskBig) ++
             (_keeping_geometry_type_is_possible e4 fGC.rows).2) ∧
     (_keeping_geometry_type_is_possible e4 fGC.rows).2 ≠ []) :=
  ⟨rfl, rfl, rfl, rfl,
    clip_reconciliation_skipped e4 fGC (.geom gMaskBig) gMaskBig rfl rfl rfl rfl
      (Or.inl rfl)⟩

/-- Every row of the clipped frame is an original row with its geometry
replaced by the intersection with the mask polygon. -/
theorem mem_clip_gdf_with_polygon {G A : Type} (E : GeomEngine G)
    (rows : List (Row G A)) (poly : G) (r : Row G A)
    (h : r ∈ _clip_gdf_with_polygon E rows poly) :
    ∃ r0 ∈ rows, r = { r0 with geom := E.intersection r0.geom poly } := by
  simp only [_clip_gdf_with_polygon, List.mem_map, List.mem_filterMap] at h
  obtain ⟨r1, ⟨i, _, hget⟩, rfl⟩ := h
  exact ⟨r1, List.get?_mem hget, rfl⟩

/-- Every exploded row keeps its parent label and attributes and carries
one of the parts of the parent geometry. -/
theorem mem_explodeRows {G A : Type} (E : GeomEngine G) (rows : List (Row G A))
    (r : Row G A) (h : r ∈ explodeRows E rows) :
    ∃ r0 ∈ rows, r.label = r0.label ∧ r.attrs = r0.attrs ∧
      r.geom ∈ E.explode r0.geom := by
  simp only [explodeRows, List.mem_flatMap, List.mem_map] at h
  obtain ⟨r0, hr0, g, hg, rfl⟩ := h
  exact ⟨r0, hr0, rfl, rfl, hg⟩

/-- Every row surviving type reconciliation is either one of the clipped
rows unchanged, or an exploded part of one of them. -/
theorem mem_keep_only_original_geom_type {G A : Type} (E : GeomEngine G)
    (rows : List (Row G A)) (t : GeomTag) (r : Row G A)
    (h : r ∈ _keep_only_original_geom_type E rows t) :
    r ∈ rows ∨ ∃ r0 ∈ rows, r.label = r0.label ∧ r.attrs = r0.attrs ∧
      r.geom ∈ E.explode r0.geom := by
  simp only [_keep_only_original_geom_type] at h
  split at h
  · have hx : r ∈ (if _contains_geometrycollection E rows then explodeRows E rows
        else rows) := by
      split at h
      · exact (List.mem_filter.mp h).1
      · split at h
        · exact (List.mem_filter.mp h).1
        · exact h
    split at hx
    · exact Or.inr (mem_explodeRows E rows r hx)
    · exact Or.inl hx
  · exact Or.inl h

/-- The shape of every successful clip result on a frame input: either
the empty short-circuits fired, or the mask resolved to a polygon and
the result rows are the order-restored, optionally reconciled clipped
rows. -/
theorem clip_ok_shape {G A : Type} (E : GeomEngine G) (f : Frame G A) (mask : MaskArg G)
    (kgt : Bool) (out : Frame G A) (ws : List ClipWarning)
    (hok : clip E (.frame f) mask kgt = .ok (out, ws)) :
    out.rows = [] ∨
    ∃ poly, _create_mask_polygon E mask = some poly ∧
      out.rows = _recreate_initial_order f.rows
        (if kgt && (_keeping_geometry_type_is_possible E f.rows).1 then
          _keep_only_original_geom_type E (_clip_gdf_with_polygon E f.rows poly)
            (originalTypeOf E f.rows)
         else _clip_gdf_with_polygon E f.rows poly) := by
  simp only [clip] at hok
  split at hok
  · split at hok
    · split at hok
      · exact absurd hok (by simp)
      · rename_i poly heq
        split at hok
        · simp only [Except.ok.injEq, Prod.mk.injEq] at hok
          exact Or.inl (by rw [← hok.1]; rfl)
        · simp only [Except.ok.injEq, Prod.mk.injEq] at hok
          refine Or.inr ⟨poly, heq, ?_⟩
          rw [← hok.1]
    · simp only [Except.ok.injEq, Prod.mk.injEq] at hok
      exact Or.inl (by rw [← hok.1]; rfl)
  · exact absurd hok (by simp)

/-- C1 amended: every row of a successful clip result copies the label
and attribute values of some original row, and its geometry is the exact
intersection of that row's geometry with the resolved mask polygon or —
when keep_geom_type reconciliation explodes GeometryCollections — one of
the parts that intersection explodes into; no other geometry appears. -/
theorem clip_output_provenance {G A : Type} (E : GeomEngine G) (f : Frame G A)
    (mask : MaskArg G) (kgt : Bool) (out : Frame G A) (ws : List ClipWarning)
    (hok : clip E (.frame f) mask kgt = .ok (out, ws)) :
    ∀ r ∈ out.rows, ∃ poly, _create_mask_polygon E mask = some poly ∧
      RowProvenance E f.rows poly r := by
  intro r hr
  rcases clip_ok_shape E f mask kgt out ws hok with hempty | ⟨poly, hmk, hrows⟩
  · rw [hempty] at hr
    cases hr
  · refine ⟨poly, hmk, ?_⟩
    rw [hrows] at hr
    unfold _recreate_initial_order at hr
    rw [List.mem_insertionSort] at hr
    split at hr
    · rcases mem_keep_only_original_geom_type E _ _ r hr with hc | ⟨rc, hrc, hl, ha, hg⟩
      · obtain ⟨r0, hr0, rfl⟩ := mem_clip_gdf_with_polygon E f.rows poly r hc
        exact ⟨r0, hr0, rfl, rfl, Or.inl rfl⟩
      · obtain ⟨r0, hr0, rfl⟩ := mem_clip_gdf_with_polygon E f.rows poly rc hrc
        exact ⟨r0, hr0, hl, ha, Or.inr hg⟩
    · obtain ⟨r0, hr0, rfl⟩ := mem_clip_gdf_with_polygon E f.rows poly r hr
      exact ⟨r0, hr0, rfl, rfl, Or.inl rfl⟩

/-- Witness for C1 amended at the concrete exploding run; the returned
part row is traced back to the original row. -/
theorem clip_output_provenance_witness :
    clip e1 (.frame f1) (.geom gMask) true =
      .ok ((⟨none, [⟨0, gPart, ()⟩]⟩ : Frame CG Unit), []) ∧
    (∀ r ∈ (⟨none, [⟨0, gPart, ()⟩]⟩ : Frame CG Unit).rows,
      ∃ poly, _create_mask_polygon e1 (.geom gMask) = some poly ∧
        RowProvenance e1 f1.rows poly r) :=
  ⟨rfl, clip_output_provenance e1 f1 (.geom gMask) true _ _ rfl⟩

/-- When the reconciliation trigger has fired and the original type is in
the Polygon family, every surviving row is of the Polygon family. -/
theorem keep_only_polygon_members {G A : Type} (E : GeomEngine G)
    (rows : List (Row G A)) (t : GeomTag)
    (ht : t ∈ _POLYGON_TYPES)
    (htr : _contains_geometrycollection E rows = true ∨
           1 < _get_number_of_unique_geometry_types E rows) :
    ∀ r ∈ _keep_only_original_geom_type E rows t,
      E.geomType r.geom ∈ _POLYGON_TYPES := by
  intro r hr
  simp only [_keep_only_original_geom_type] at hr
  have hcond : (_contains_geometrycollection E rows ||
      decide (_get_number_of_unique_geometry_types E rows > 1)) = true := by
    rcases htr with h | h
    · simp [h]
    · simp [h]
  rw [if_pos hcond] at hr
  have htne : t ∉ _LINE_TYPES := by
    simp only [_POLYGON_TYPES, List.mem_cons, List.not_mem_nil, or_false] at ht
    rcases ht with rfl | rfl <;> decide
  rw [if_neg htne, if_pos ht] at hr
  exact of_decide_eq_true (List.mem_filter.mp hr).2

/-- C4 amended: clipping a nonempty Polygon-family-only frame with
keep_geom_type yields only Polygon-family geometries provided the
reconciliation trigger fires on the clipped frame (it gained a
GeometryCollection or a second family); without the trigger — e.g. a
clipped frame holding only line remnants — the rows are returned
unfiltered, as the counterexample shows. -/
theorem clip_keep_geom_type_polygon_family {G A : Type} (E : GeomEngine G)
    (f : Frame G A) (mask : MaskArg G) (out : Frame G A) (ws : List ClipWarning)
    (hpoly : ∀ r ∈ f.rows, E.geomType r.geom ∈ _POLYGON_TYPES)
    (hne : f.rows ≠ [])
    (htrig : ∀ poly, _create_mask_polygon E mask = some poly →
      _contains_geometrycollection E (_clip_gdf_with_polygon E f.rows poly) = true ∨
      1 < _get_number_of_unique_geometry_types E (_clip_gdf_with_polygon E f.rows poly))
    (hok : clip E (.frame f) mask true = .ok (out, ws)) :
    ∀ r ∈ out.rows, E.geomType r.geom ∈ _POLYGON_TYPES := by
  have hgc0 : _contains_geometrycollection E f.rows = false := by
    unfold _contains_geometrycollection
    rw [List.any_eq_false]
    intro r hr
    have h := hpoly r hr
    simp only [_POLYGON_TYPES, List.mem_cons, List.not_mem_nil, or_false] at h
    rcases h with h | h <;> simp [h]
  have hExP : ∃ x ∈ f.rows, E.geomType x.geom ∈ _POLYGON_TYPES := by
    obtain ⟨r0, hr0⟩ := List.exists_mem_of_ne_nil f.rows hne
    exact ⟨r0, hr0, hpoly r0 hr0⟩
  have hNoPt : ¬ ∃ x ∈ f.rows, E.geomType x.geom ∈ _POINT_TYPES := by
    rintro ⟨x, hx, hmem⟩
    have h := hpoly x hx
    simp only [_POLYGON_TYPES, List.mem_cons, List.not_mem_nil, or_false] at h
    rcases h with h | h <;> simp [h, _POINT_TYPES] at hmem
  have hNoLn : ¬ ∃ x ∈ f.rows, E.geomType x.geom ∈ _LINE_TYPES := by
    rintro ⟨x, hx, hmem⟩
    have h := hpoly x hx
    simp only [_POLYGON_TYPES, List.mem_cons, List.not_mem_nil, or_false] at h
    rcases h with h | h <;> simp [h, _LINE_TYPES] at hmem
  have hcnt : _get_number_of_unique_geometry_types E f.rows = 1 := by
    unfold _get_number_of_unique_geometry_types
    simp [_GEOMETRY_TYPES, hExP, hNoPt, hNoLn]
  have hkg : _keeping_geometry_type_is_possible E f.rows = (true, []) := by
    unfold _keeping_geometry_type_is_possible
    simp [hgc0, hcnt]
  have hot : originalTypeOf E f.rows ∈ _POLYGON_TYPES := by
    cases hrows : f.rows with
    | nil => exact absurd hrows hne
    | cons r0 tl =>
      simpa [originalTypeOf] using hpoly r0 (by rw [hrows]; exact List.mem_cons_self r0 tl)
  intro r hr
  rcases clip_ok_shape E f mask true out ws hok with hempty | ⟨poly, hmk, hrows2⟩
  · rw [hempty] at hr
    cases hr
  · rw [hrows2] at hr
    unfold _recreate_initial_order at hr
    rw [List.mem_insertionSort] at hr
    rw [hkg] at hr
    simp at hr
    exact keep_only_polygon_members E _ _ hot (htrig poly hmk) r hr

/-- Witness for C4 amended at the concrete exploding run. -/
theorem clip_keep_geom_type_polygon_family_witness :
    (∀ r ∈ f1.rows, e1.geomType r.geom ∈ _POLYGON_TYPES) ∧
    f1.rows ≠ [] ∧
    clip e1 (.frame f1) (.geom gMask) true =
      .ok ((⟨none, [⟨0, gPart, ()⟩]⟩ : Frame CG Unit), []) ∧
    (∀ r ∈ (⟨none, [⟨0, gPart, ()⟩]⟩ : Frame CG Unit).rows,
      e1.geomType r.geom ∈ _POLYGON_TYPES) :=
  ⟨by decide, by decide, rfl,
    clip_keep_geom_type_polygon_family e1 f1 (.geom gMask) _ _ (by decide) (by decide)
      (fun poly hp => by
        rw [show poly = gMask from (Option.some.injEq _ _).mp hp.symm]
        exact Or.inl rfl)
      rfl⟩

/-- Allocation returns the frontier address. -/
theorem store_alloc_fst {G A : Type} (s : Store G A) (v : HFrame G A) :
    (s.alloc v).1 = s.next := rfl

/-- Allocation advances the frontier by one. -/
theorem store_alloc_next {G A : Type} (s : Store G A) (v : HFrame G A) :
    (s.alloc v).2.next = s.next + 1 := rfl

/-- Writing does not move the frontier. -/
theorem store_write_next {G A : Type} (s : Store G A) (i : Nat) (v : HFrame G A) :
    (s.write i v).next = s.next := rfl

/-- PreservesBelow is reflexive on stores whose frontier is past n. -/
theorem preservesBelow_refl {G A : Type} (n : Nat) (s : Store G A) (h : n ≤ s.next) :
    PreservesBelow n s s :=
  ⟨h, fun _ _ => rfl⟩

/-- PreservesBelow composes. -/
theorem preservesBelow_trans {G A : Type} {n : Nat} {s1 s2 s3 : Store G A}
    (h1 : PreservesBelow n s1 s2) (h2 : PreservesBelow n s2 s3) :
    PreservesBelow n s1 s3 :=
  ⟨h2.1, fun j hj => (h2.2 j hj).trans (h1.2 j hj)⟩

/-- Allocation never touches the region below the frontier. -/
theorem preservesBelow_alloc {G A : Type} (n : Nat) (s : Store G A) (v : HFrame G A)
    (h : n ≤ s.next) : PreservesBelow n s (s.alloc v).2 := by
  refine ⟨by rw [store_alloc_next]; omega, fun j hj => ?_⟩
  show (if j = s.next then some v else s.mem j) = s.mem j
  rw [if_neg (by omega)]

/-- Writing at or above n never touches the region below n. -/
theorem preservesBelow_write {G A : Type} (n : Nat) (s : Store G A) (i : Nat)
    (v : HFrame G A) (hn : n ≤ s.next) (hi : n ≤ i) :
    PreservesBelow n s (s.write i v) := by
  refine ⟨by rw [store_write_next]; exact hn, fun j hj => ?_⟩
  show (if j = i then some v else s.mem j) = s.mem j
  rw [if_neg (by omega)]

/-- The empty-frame step allocates fresh and returns a fresh address. -/
theorem emptyFromGdfS_effects {G A : Type} (n : Nat) (st : Store G A) (f : Frame G A)
    (hn : n ≤ st.next) :
    PreservesBelow n st (emptyFromGdfS st f).2 ∧ n ≤ (emptyFromGdfS st f).1 :=
  ⟨preservesBelow_alloc n st _ hn, hn⟩

/-- The heap clipping step only allocates and writes fresh objects, and
returns a fresh address. -/
theorem clipGdfWithPolygonS_effects {G A : Type} (n : Nat) (E : GeomEngine G)
    (st : Store G A) (f : Frame G A) (poly : G) (hn : n ≤ st.next) :
    PreservesBelow n st (clipGdfWithPolygonS E st f poly).2 ∧
    n ≤ (clipGdfWithPolygonS E st f poly).1 := by
  simp only [clipGdfWithPolygonS]
  refine ⟨preservesBelow_trans (preservesBelow_trans
      (preservesBelow_alloc n st _ hn)
      (preservesBelow_alloc n _ _ ?_))
    (preservesBelow_write n _ _ _ ?_ ?_), ?_⟩
  · rw [store_alloc_next]; omega
  · rw [store_alloc_next, store_alloc_next]; omega
  · rw [store_alloc_fst, store_alloc_next]; omega
  · rw [store_alloc_fst, store_alloc_next]; omega

/-- The heap order-restoration step writes only the clipped frame (a
fresh object) and allocates the returned frame fresh. -/
theorem recreateInitialOrderS_effects {G A : Type} (n : Nat) (st : Store G A)
    (orig : List (Row G A)) (curId : Nat) (crs : Option Nat) (rows2 : List (Row G A))
    (hn : n ≤ st.next) (hc : n ≤ curId) :
    PreservesBelow n st (recreateInitialOrderS st orig curId crs rows2).2 ∧
    n ≤ (recreateInitialOrderS st orig curId crs rows2).1 := by
  simp only [recreateInitialOrderS]
  refine ⟨preservesBelow_trans (preservesBelow_write n st curId _ hn hc)
      (preservesBelow_alloc n _ _ ?_), ?_⟩
  · rw [store_write_next]; exact hn
  · rw [store_alloc_fst, store_write_next]; exact hn

/-- The whole heap pipeline never touches pre-existing objects, and a
successful run returns a fresh address. -/
theorem clipS_effects {G A : Type} (E : GeomEngine G) (st : Store G A) (gdfId : Nat)
    (mask : MaskRef G) (kgt : Bool) :
    PreservesBelow st.next st (clipS E st gdfId mask kgt).2 ∧
    ∀ outId, (clipS E st gdfId mask kgt).1 = .ok outId → st.next ≤ outId := by
  simp only [clipS]
  split
  · exact ⟨preservesBelow_refl _ _ le_rfl, fun outId h => absurd h (by simp)⟩
  · rename_i hf hfeq
    split
    · exact ⟨preservesBelow_refl _ _ le_rfl, fun outId h => absurd h (by simp)⟩
    · rename_i mv hmveq
      split
      · split
        · split
          · exact ⟨preservesBelow_refl _ _ le_rfl, fun outId h => absurd h (by simp)⟩
          · rename_i poly hpolyeq
            have hc := clipGdfWithPolygonS_effects st.next E st hf.frame poly le_rfl
            split
            · have he := emptyFromGdfS_effects st.next
                (clipGdfWithPolygonS E st hf.frame poly).2 hf.frame hc.1.1
              refine ⟨preservesBelow_trans hc.1 he.1, fun outId h => ?_⟩
              injection h with h2
              exact h2 ▸ he.2
            · cases hkg : (kgt && (_keeping_geometry_type_is_possible E hf.frame.rows).1) with
              | false =>
                simp only [hkg, Bool.false_eq_true, if_false]
                have hr := recreateInitialOrderS_effects st.next
                  (clipGdfWithPolygonS E st hf.frame poly).2 hf.frame.rows
                  (clipGdfWithPolygonS E st hf.frame poly).1 hf.frame.crs
                  (_clip_gdf_with_polygon E hf.frame.rows poly) hc.1.1 hc.2
                refine ⟨preservesBelow_trans hc.1 hr.1, fun outId h => ?_⟩
                injection h with h2
                exact h2 ▸ hr.2
              | true =>
                simp only [hkg, if_true]
                have hs := preservesBelow_alloc st.next
                  (clipGdfWithPolygonS E st hf.frame poly).2
                  ⟨⟨hf.frame.crs, _keep_only_original_geom_type E
                      (_clip_gdf_with_polygon E hf.frame.rows poly)
                      (originalTypeOf E hf.frame.rows)⟩, none⟩ hc.1.1
                have hstep := preservesBelow_trans hc.1 hs
                have hr := recreateInitialOrderS_effects st.next
                  ((clipGdfWithPolygonS E st hf.frame poly).2.alloc
                    ⟨⟨hf.frame.crs, _keep_only_original_geom_type E
                        (_clip_gdf_with_polygon E hf.frame.rows poly)
                        (originalTypeOf E hf.frame.rows)⟩, none⟩).2 hf.frame.rows
                  ((clipGdfWithPolygonS E st hf.frame poly).2.alloc
                    ⟨⟨hf.frame.crs, _keep_only_original_geom_type E
                        (_clip_gdf_with_polygon E hf.frame.rows poly)
                        (originalTypeOf E hf.frame.rows)⟩, none⟩).1 hf.frame.crs
                  (_keep_only_original_geom_type E
                    (_clip_gdf_with_polygon E hf.frame.rows poly)
                    (originalTypeOf E hf.frame.rows)) hstep.1
                  (by rw [store_alloc_fst]; exact hc.1.1)
                refine ⟨preservesBelow_trans hstep hr.1, fun outId h => ?_⟩
                injection h with h2
                exact h2 ▸ hr.2
        · have he := emptyFromGdfS_effects st.next st hf.frame le_rfl
          refine ⟨he.1, fun outId h => ?_⟩
          injection h with h2
          exact h2 ▸ he.2
      · exact ⟨preservesBelow_refl _ _ le_rfl, fun outId h => absurd h (by simp)⟩

/-- C8: clip never mutates the input frame or any other pre-existing
object (in particular a frame mask): after the call, every address that
existed before holds exactly the object it held before, and a returned
result lives at a fresh address distinct from the input. -/
theorem clipS_frame_property {G A : Type} (E : GeomEngine G) (st : Store G A)
    (gdfId : Nat) (mask : MaskRef G) (kgt : Bool) (hg : gdfId < st.next) :
    (clipS E st gdfId mask kgt).2.mem gdfId = st.mem gdfId ∧
    (∀ j, j < st.next → (clipS E st gdfId mask kgt).2.mem j = st.mem j) ∧
    (∀ outId, (clipS E st gdfId mask kgt).1 = .ok outId →
      st.next ≤ outId ∧ outId ≠ gdfId) := by
  have h := clipS_effects E st gdfId mask kgt
  refine ⟨h.1.2 gdfId hg, fun j hj => h.1.2 j hj, fun outId hok => ?_⟩
  have hfresh := h.2 outId hok
  exact ⟨hfresh, by omega⟩

/-- Witness for C8 at a concrete store holding one frame at address 0. -/
theorem clipS_frame_property_witness :
    0 < st0.next ∧
    ((clipS e4 st0 0 (.geom gMask) false).2.mem 0 = st0.mem 0 ∧
     (∀ j, j < st0.next → (clipS e4 st0 0 (.geom gMask) false).2.mem j = st0.mem j) ∧
     (∀ outId, (clipS e4 st0 0 (.geom gMask) false).1 = .ok outId →
       st0.next ≤ outId ∧ outId ≠ 0)) :=
  ⟨by decide, clipS_frame_property e4 st0 0 (.geom gMask) false (by decide)⟩

end GPClip
